import Mathlib

/-!
# Verification of the Nexus_Core resilient data-loader pipeline

Shallow embedding, in Lean 4, of the core components of the
`src/data_loader` package (cache store, circuit breaker, retry driver,
HTTP transport error classification, provider adapter and loader
orchestrator), together with theorems settling the specification claims
about them.

External dependencies of the Python source (wall-clock time, the
filesystem, the network via `aiohttp`, and `hashlib`) are modelled
explicitly: time is an explicit rational parameter, the cache filesystem
is an explicit state value, the transport is an oracle giving the
outcome of each attempt, and the digest used for over-long cache keys is
a deterministic 16-hex-digit stand-in for `hashlib.md5(...).hexdigest()[:16]`.
-/

namespace Nexus

/-! ## Cache store (`src/data_loader/cache.py`) -/

/-- `CacheEntry` from `cache.py` (`data`, `timestamp`, `ttl_days`,
`provider`, `key`).  The payload type is a parameter `α` standing for an
arbitrary JSON-serializable value; timestamps are rationals standing for
Python floats (Unix seconds). -/
structure CacheEntry (α : Type) where
  data : α
  timestamp : ℚ
  ttl_days : ℤ
  provider : String
  key : String
  deriving Repr, DecidableEq

/-- `CacheEntry.is_expired`: `time.time() > self.timestamp + self.ttl_days * 86400`.
`now` is the explicit current wall-clock time. -/
def CacheEntry.is_expired (e : CacheEntry α) (now : ℚ) : Bool :=
  now > e.timestamp + (e.ttl_days : ℚ) * 86400

/-- Age of an entry in seconds (`time.time() - self.timestamp`). -/
def CacheEntry.age_seconds (e : CacheEntry α) (now : ℚ) : ℚ :=
  now - e.timestamp

/-- Contents of one on-disk cache file: either a fully written valid
entry, or bytes that fail JSON decoding / lack required fields
(`corrupt`).  Readers cannot distinguish `corrupt` from absent. -/
inductive FileContent (α : Type) where
  | valid (e : CacheEntry α)
  | corrupt
  deriving Repr, DecidableEq

/-- The cache directory tree: a map from file path to contents, plus the
set of live temp-file names created by `tempfile.mkstemp` (modelled as
natural-number tickets). -/
structure CacheFS (α : Type) where
  files : String → Option (FileContent α)
  temps : List ℕ

/-- `CacheManager._sanitize_key`: replace each character of the fixed
unsafe set with an underscore. -/
def sanitizeKey (key : String) : String :=
  String.map (fun c =>
    if c = '/' ∨ c = '\\' ∨ c = ':' ∨ c = '*' ∨ c = '?' ∨ c = '"' ∨
       c = '<' ∨ c = '>' ∨ c = '|' ∨ c = ' ' then '_' else c) key

/-- `CacheManager._get_cache_path`: `<provider>_cache/<sanitized key>.json`. -/
def cachePath (provider key : String) : String :=
  provider ++ "_cache/" ++ sanitizeKey key ++ ".json"

/-- The mutable configuration of `CacheManager` (`ttl_days`, `enabled`).
The base directory is implicit in the path model. -/
structure CacheManager where
  ttl_days : ℤ
  enabled : Bool
  deriving Repr, DecidableEq

/-- `CacheManager.get`: `None` when the cache is disabled, the file is
absent, the file fails decoding, or the entry is expired and
`ignore_expired` is false; the decoded entry otherwise. -/
def CacheManager.get (m : CacheManager) (fs : CacheFS α) (now : ℚ)
    (provider key : String) (ignore_expired : Bool := false) :
    Option (CacheEntry α) :=
  if ¬ m.enabled then none
  else
    match fs.files (cachePath provider key) with
    | none => none
    | some .corrupt => none
    | some (.valid e) =>
      if e.is_expired now ∧ ¬ ignore_expired then none else some e

/-- A fresh `mkstemp` ticket: one more than every live temp ticket. -/
def freshTemp (fs : CacheFS α) : ℕ :=
  fs.temps.foldr max 0 + 1

/-- The point at which `CacheManager.set` can fail, mirroring the
statements of the Python `try` blocks: `mkdir`, `mkstemp`, the JSON dump
to the temp file (this also covers a non-serializable value), the final
`os.replace`, or no failure. -/
inductive SetFailure where
  | mkdirFail
  | mkstempFail
  | writeFail
  | renameFail
  | noFail
  deriving Repr, DecidableEq

/-- `CacheManager.set`: atomic write via temp file + rename.  Returns the
Python return value and the new filesystem state.  On a failure after
`mkstemp`, the inner `except` removes the temp file and re-raises, and
the outer `except` returns `False`.  Python's `ttl_days or self.ttl_days`
treats an override of `0` as falsy. -/
def CacheManager.set (m : CacheManager) (fs : CacheFS α)
    (provider key : String) (data : α) (now : ℚ)
    (ttl_days : Option ℤ := none) (fail : SetFailure := .noFail) :
    Bool × CacheFS α :=
  if ¬ m.enabled then (false, fs)
  else
    match fail with
    | .mkdirFail => (false, fs)
    | .mkstempFail => (false, fs)
    | .writeFail =>
      -- temp created, write into it fails, cleanup unlinks the temp
      let t := freshTemp fs
      let fs1 : CacheFS α := { fs with temps := t :: fs.temps }
      (false, { fs1 with temps := fs1.temps.erase t })
    | .renameFail =>
      -- temp created and written, `os.replace` fails, cleanup unlinks it
      let t := freshTemp fs
      let fs1 : CacheFS α := { fs with temps := t :: fs.temps }
      (false, { fs1 with temps := fs1.temps.erase t })
    | .noFail =>
      let entry : CacheEntry α :=
        { data := data
          timestamp := now
          ttl_days := (ttl_days.filter (· ≠ 0)).getD m.ttl_days
          provider := provider
          key := key }
      let t := freshTemp fs
      let fs1 : CacheFS α := { fs with temps := t :: fs.temps }
      -- `os.replace` atomically installs the new entry and consumes the temp
      (true,
        { files := fun p =>
            if p = cachePath provider key then some (.valid entry)
            else fs1.files p
          temps := fs1.temps.erase t })

/-! ## Cache-key derivation (`providers/base.py`, `providers/fmp.py`) -/

/-- A Python `**params` keyword mapping, as the association list of its
items: string keys with string-rendered primitive values (`none` is
Python `None`). Keyword arguments have pairwise-distinct keys. -/
abbrev Params := List (String × Option String)

/-- Key comparison used by `sorted(params.items())`.  Python sorts the
`(key, value)` tuples lexicographically; since keyword-argument keys are
pairwise distinct the value components are never compared, so comparing
keys is the faithful model. -/
def keyLE (a b : String × Option String) : Bool := a.1 ≤ b.1

/-- `sorted(params.items())`. -/
def sortParams (l : Params) : Params := l.mergeSort keyLE

/-- Lowercase hex digit for a value below 16 (`0-9a-f`). -/
def hexChar (n : ℕ) : Char :=
  if n < 10 then Char.ofNat (48 + n) else Char.ofNat (87 + n)

/-- Fixed-width big-endian hex rendering: exactly `k` digits. -/
def hexPad : ℕ → ℕ → List Char
  | 0, _ => []
  | k + 1, n => hexPad k (n / 16) ++ [hexChar (n % 16)]

/-- Stand-in for `hashlib.md5(key.encode()).hexdigest()[:16]` (an
external standard-library primitive): a deterministic 16-hex-digit
digest of the full key, modelled as a 64-bit fold over the characters
rendered in hex. -/
def md5hex16 (s : String) : String :=
  String.mk (hexPad 16 (s.data.foldl (fun a c => (a * 131 + c.toNat) % 2 ^ 64) 5381))

/-- The concatenated key built by `BaseDataProvider._generate_cache_key`
before the length check: `f"{prefix}_{param_str}" if param_str else prefix`
where `param_str` joins `f"{k}={v}"` over the sorted non-`None` params. -/
def rawCacheKey (pre : String) (params : Params) : String :=
  let param_str := String.intercalate "_"
    (((sortParams params).filter (fun p => p.2.isSome)).map
      (fun p => p.1 ++ "=" ++ p.2.getD ""))
  if param_str = "" then pre else pre ++ "_" ++ param_str

/-- `BaseDataProvider._generate_cache_key`: the concatenated key, or
`<prefix>_<digest16 of the full key>` when it exceeds 200 characters. -/
def generate_cache_key (pre : String) (params : Params) : String :=
  let key := rawCacheKey pre params
  if key.length > 200 then pre ++ "_" ++ md5hex16 key else key

/-- `FMPProvider.cache_key`: drops the `apikey` credential parameter and
delegates to `_generate_cache_key` with the endpoint as prefix. -/
def FMPProvider.cache_key (endpoint : String) (params : Params) : String :=
  generate_cache_key endpoint (params.filter (fun p => p.1 ≠ "apikey"))

/-- `PolygonProvider.cache_key`: same, with credential param `apiKey`. -/
def PolygonProvider.cache_key (endpoint : String) (params : Params) : String :=
  generate_cache_key endpoint (params.filter (fun p => p.1 ≠ "apiKey"))

/-- `FREDProvider.cache_key`: same, with credential param `api_key`. -/
def FREDProvider.cache_key (endpoint : String) (params : Params) : String :=
  generate_cache_key endpoint (params.filter (fun p => p.1 ≠ "api_key"))

/-- The character set of lowercase hex digits. -/
def isHexDigitChar (c : Char) : Bool :=
  ('0' ≤ c && c ≤ '9') || ('a' ≤ c && c ≤ 'f')

/-! ## HTTP transport (`src/data_loader/http_client.py`) -/

/-- The post-parse portion of an `HttpResponse`: status code and
response headers (the decoded body, final URL and elapsed time play no
role in error classification). -/
structure HttpResponse where
  status : ℕ
  headers : List (String × String)
  deriving Repr, DecidableEq

/-- `HttpResponse.is_success`: `200 <= status < 300`. -/
def HttpResponse.is_success (r : HttpResponse) : Bool :=
  200 ≤ r.status ∧ r.status < 300

/-- `HttpResponse.is_rate_limited`: `status == 429`. -/
def HttpResponse.is_rate_limited (r : HttpResponse) : Bool :=
  r.status = 429

/-- `HttpResponse.is_server_error`: `500 <= status < 600`. -/
def HttpResponse.is_server_error (r : HttpResponse) : Bool :=
  500 ≤ r.status ∧ r.status < 600

/-- The classified errors `_check_response` can raise. -/
inductive HttpErrorKind where
  | rateLimitError (retry_after : Option ℕ)
  | serverError (status : ℕ)
  | clientError (status : ℕ)
  deriving Repr, DecidableEq

/-- `headers.get(name)` on the response-header mapping. -/
def headersGet (headers : List (String × String)) (name : String) : Option String :=
  (headers.find? (fun p => p.1 = name)).map Prod.snd

/-- `int(s)` for a string of decimal digits. -/
def digitsToNat (s : String) : ℕ :=
  s.data.foldl (fun n c => 10 * n + (c.toNat - 48)) 0

/-- `Retry-After` parsing in `_check_response`:
`int(retry_after) if retry_after and retry_after.isdigit() else None`
(an absent header, the empty string, or any non-digit character yields
`None`). -/
def parseRetryAfter (headers : List (String × String)) : Option ℕ :=
  match headersGet headers "Retry-After" with
  | none => none
  | some s =>
    if s ≠ "" ∧ s.data.all Char.isDigit then some (digitsToNat s) else none

/-- `HttpClient._check_response`: `none` when no exception is raised,
otherwise the classified error.  Mirrors the source's check order:
success, then 429, then 5xx, then remaining 4xx. -/
def checkResponse (r : HttpResponse) : Option HttpErrorKind :=
  if r.is_success then none
  else if r.is_rate_limited then
    some (.rateLimitError (parseRetryAfter r.headers))
  else if r.is_server_error then some (.serverError r.status)
  else if 400 ≤ r.status ∧ r.status < 500 then some (.clientError r.status)
  else none

/-- The tail of `HttpClient.request` after a successful parse: raise the
error produced by `_check_response`, or return the response. -/
def requestResult (r : HttpResponse) : Except HttpErrorKind HttpResponse :=
  match checkResponse r with
  | some e => .error e
  | none => .ok r

/-! ## Circuit breaker (`src/data_loader/circuit_breaker.py`) -/

/-- `CircuitState` (`open` is a Lean keyword, hence `open_`). -/
inductive CircuitState where
  | closed
  | open_
  | half_open
  deriving Repr, DecidableEq

/-- `CircuitBreakerConfig` with the source's defaults. -/
structure CircuitBreakerConfig where
  error_threshold : ℚ := 1 / 5
  recovery_timeout : ℚ := 60
  min_requests : ℕ := 10
  half_open_max_requests : ℕ := 3
  window_size : ℕ := 100
  deriving Repr, DecidableEq

/-- The mutable fields of `CircuitBreaker`.  `requests` is the rolling
`deque(maxlen=window_size)` of outcomes, oldest first. -/
structure Breaker where
  state : CircuitState
  requests : List Bool
  last_failure_time : Option ℚ
  last_state_change : ℚ
  consecutive_successes : ℕ
  half_open_requests : ℕ
  deriving Repr, DecidableEq

/-- A freshly constructed breaker. -/
def Breaker.init (now : ℚ) : Breaker :=
  { state := .closed
    requests := []
    last_failure_time := none
    last_state_change := now
    consecutive_successes := 0
    half_open_requests := 0 }

/-- `deque.append` on a `deque(maxlen=cap)`: push on the right, drop
from the left when over capacity. -/
def pushWindow (cap : ℕ) (l : List Bool) (b : Bool) : List Bool :=
  let pushed := l ++ [b]
  if cap < pushed.length then pushed.drop (pushed.length - cap) else pushed

/-- `CircuitBreaker._calculate_error_rate`: failures / window length
(zero for the empty window). -/
def errorRate (l : List Bool) : ℚ :=
  if l.length = 0 then 0 else (l.countP (fun s => !s) : ℚ) / (l.length : ℚ)

/-- `CircuitBreaker._transition_to`: records the state-change time; on
entering half-open, resets the probe and consecutive-success counters. -/
def Breaker.transition_to (br : Breaker) (now : ℚ) (new : CircuitState) : Breaker :=
  if br.state ≠ new then
    let br1 := { br with state := new, last_state_change := now }
    if new = .half_open then
      { br1 with half_open_requests := 0, consecutive_successes := 0 }
    else br1
  else br

/-- `CircuitBreaker._check_state_transition`: lazily move Open →
Half-Open once the recovery timeout has elapsed since the last failure.
The `if self._last_failure_time:` truthiness guard skips both `None` and
a zero timestamp. -/
def Breaker.check_state_transition (br : Breaker) (cfg : CircuitBreakerConfig)
    (now : ℚ) : Breaker :=
  if br.state = .open_ then
    match br.last_failure_time with
    | some t =>
      if t ≠ 0 ∧ now - t ≥ cfg.recovery_timeout then br.transition_to now .half_open
      else br
    | none => br
  else br

/-- `CircuitBreaker.record_success`. -/
def Breaker.record_success (br : Breaker) (cfg : CircuitBreakerConfig)
    (now : ℚ) : Breaker :=
  let br1 := { br with
    requests := pushWindow cfg.window_size br.requests true
    consecutive_successes := br.consecutive_successes + 1 }
  if br1.state = .half_open then
    let br2 := { br1 with half_open_requests := br1.half_open_requests + 1 }
    if br2.consecutive_successes ≥ cfg.half_open_max_requests then
      br2.transition_to now .closed
    else br2
  else br1

/-- `CircuitBreaker.record_failure`. -/
def Breaker.record_failure (br : Breaker) (cfg : CircuitBreakerConfig)
    (now : ℚ) : Breaker :=
  let br1 := { br with
    requests := pushWindow cfg.window_size br.requests false
    last_failure_time := some now
    consecutive_successes := 0 }
  if br1.state = .half_open then br1.transition_to now .open_
  else if br1.state = .closed then
    if br1.requests.length ≥ cfg.min_requests ∧
        errorRate br1.requests ≥ cfg.error_threshold then
      br1.transition_to now .open_
    else br1
  else br1

/-- The `state` property: performs the lazy transition check and returns
the (possibly updated) state together with the mutated breaker. -/
def Breaker.state_query (br : Breaker) (cfg : CircuitBreakerConfig)
    (now : ℚ) : CircuitState × Breaker :=
  let br1 := br.check_state_transition cfg now
  (br1.state, br1)

/-- `CircuitBreaker.can_execute`: closed passes, open rejects, half-open
admits up to `half_open_max_requests` probes. -/
def Breaker.can_execute (br : Breaker) (cfg : CircuitBreakerConfig)
    (now : ℚ) : Bool × Breaker :=
  let br1 := br.check_state_transition cfg now
  match br1.state with
  | .closed => (true, br1)
  | .open_ => (false, br1)
  | .half_open => (br1.half_open_requests < cfg.half_open_max_requests, br1)

/-- `CircuitBreaker.reset`: force Closed, empty the window and timers. -/
def Breaker.reset (_br : Breaker) (now : ℚ) : Breaker :=
  Breaker.init now

/-! ## Retry driver (`src/data_loader/retry.py`) -/

/-- The Python exceptions that flow through the fetch pipeline: the
transport taxonomy of `http_client.py`, `ValueError` from request
building, and an arbitrary other exception (with its class name and
optional `status_code` attribute). -/
inductive FetchExc where
  | rateLimitError (retry_after : Option ℕ)
  | serverError (status : ℕ)
  | clientError (status : ℕ)
  | timeoutError (timeout : ℚ)
  | connectionError (msg : String)
  | httpError (msg : String)
  | valueError (msg : String)
  | otherError (ty msg : String) (status_code : Option ℕ)
  deriving Repr, DecidableEq

/-- `getattr(exception, 'status_code', None)`.  The transport
constructors set it as in `http_client.py`: `RateLimitError` to 429,
`ServerError`/`ClientError` to their status; `TimeoutError`,
`ConnectionError` and bare `HttpError` are raised without one; Python
`ValueError` has no such attribute. -/
def FetchExc.status_code : FetchExc → Option ℕ
  | .rateLimitError _ => some 429
  | .serverError s => some s
  | .clientError s => some s
  | .timeoutError _ => none
  | .connectionError _ => none
  | .httpError _ => none
  | .valueError _ => none
  | .otherError _ _ sc => sc

/-- `type(e).__name__`. -/
def FetchExc.tyName : FetchExc → String
  | .rateLimitError _ => "RateLimitError"
  | .serverError _ => "ServerError"
  | .clientError _ => "ClientError"
  | .timeoutError _ => "TimeoutError"
  | .connectionError _ => "ConnectionError"
  | .httpError _ => "HttpError"
  | .valueError _ => "ValueError"
  | .otherError ty _ _ => ty

/-- `str(e)`: the messages built at the transport raise sites. -/
def FetchExc.message : FetchExc → String
  | .rateLimitError _ => "Rate limit exceeded"
  | .serverError s => "Server error: " ++ toString s
  | .clientError s => "Client error: " ++ toString s
  | .timeoutError t => "Request timed out after " ++ toString t ++ "s"
  | .connectionError m => "Connection failed: " ++ m
  | .httpError m => "HTTP client error: " ++ m
  | .valueError m => m
  | .otherError _ m _ => m

/-- `RetryConfig` with the source's defaults.  The `retryable_exceptions`
allow-list (a tuple of exception classes, empty by default and never
configured in the repository) is modelled by exception class name. -/
structure RetryConfig where
  max_retries : ℕ := 3
  base_delay : ℚ := 1
  max_delay : ℚ := 60
  exponential_base : ℚ := 2
  jitter : Bool := true
  jitter_factor : ℚ := 1 / 2
  retryable_exceptions : List String := []
  non_retryable_status_codes : List ℕ := [400, 401, 403, 404]
  deriving Repr, DecidableEq

/-- `RetryHandler._is_exception_retryable`: the allow-list gate, then
the status-code gate.  `not (status_code and status_code in codes)`
treats an absent or zero status code as retryable. -/
def RetryConfig.is_exception_retryable (cfg : RetryConfig) (e : FetchExc) : Bool :=
  if cfg.retryable_exceptions ≠ [] ∧ e.tyName ∉ cfg.retryable_exceptions then false
  else
    match e.status_code with
    | some c => ¬ (c ≠ 0 ∧ c ∈ cfg.non_retryable_status_codes)
    | none => true

/-- The three ways `RetryHandler.execute` can finish: the wrapped
function's value, a non-retryable exception re-raised as-is, or
`RetryError(last_exception, attempts)` on exhaustion. -/
inductive RetryOutcome (α : Type) where
  | ok (a : α)
  | raised (e : FetchExc)
  | exhausted (last : Option FetchExc) (attempts : ℕ)
  deriving Repr, DecidableEq

/-- The `for attempt in range(max_retries + 1)` loop of
`RetryHandler.execute`.  `f i` is the outcome of the `i`-th invocation
of the wrapped function; `remaining` counts the loop iterations left.
The second component of the result is the number of invocations
performed. -/
def RetryConfig.executeLoop (cfg : RetryConfig) (f : ℕ → Except FetchExc α) :
    ℕ → ℕ → Option FetchExc → RetryOutcome α × ℕ
  | 0, _, last => (.exhausted last (cfg.max_retries + 1), 0)
  | remaining + 1, attempt, _ =>
    match f attempt with
    | .ok a => (.ok a, 1)
    | .error e =>
      if cfg.is_exception_retryable e then
        let p := cfg.executeLoop f remaining (attempt + 1) (some e)
        (p.1, p.2 + 1)
      else (.raised e, 1)

/-- `RetryHandler.execute`. -/
def RetryConfig.execute (cfg : RetryConfig) (f : ℕ → Except FetchExc α) :
    RetryOutcome α × ℕ :=
  cfg.executeLoop f (cfg.max_retries + 1) 0 none

/-- `RetryHandler.execute` around a stateful closure (the orchestrator
passes `provider.get`, which reads and writes the cache filesystem and
the health registry).  `g i s` is the `i`-th invocation on state `s`,
returning the raised exception or the value, plus the state as mutated
by that invocation.  Result: outcome, number of invocations, final
state. -/
def RetryConfig.executeStateLoop (cfg : RetryConfig)
    (g : ℕ → σ → Except FetchExc β × σ) :
    ℕ → ℕ → Option FetchExc → σ → RetryOutcome β × ℕ × σ
  | 0, _, last, s => (.exhausted last (cfg.max_retries + 1), 0, s)
  | remaining + 1, attempt, _, s =>
    match g attempt s with
    | (.ok b, s1) => (.ok b, 1, s1)
    | (.error e, s1) =>
      if cfg.is_exception_retryable e then
        let p := cfg.executeStateLoop g remaining (attempt + 1) (some e) s1
        (p.1, p.2.1 + 1, p.2.2)
      else (.raised e, 1, s1)

/-- Stateful `RetryHandler.execute`. -/
def RetryConfig.executeState (cfg : RetryConfig)
    (g : ℕ → σ → Except FetchExc β × σ) (s : σ) : RetryOutcome β × ℕ × σ :=
  cfg.executeStateLoop g (cfg.max_retries + 1) 0 none s

/-! ## Health registry (`src/data_loader/health.py`) -/

/-- `RequestMetrics`. -/
structure RequestMetrics where
  provider : String
  endpoint : String
  success : Bool
  status_code : Option ℕ
  latency_ms : ℚ
  timestamp : ℚ
  error_type : Option String
  deriving Repr, DecidableEq

/-- The cumulative counters kept per provider in
`HealthMonitor._total_counters`. -/
structure HealthCounters where
  total : ℕ := 0
  success : ℕ := 0
  failed : ℕ := 0
  rate_limited : ℕ := 0
  timeout : ℕ := 0
  deriving Repr, DecidableEq

/-- `HealthMonitor` state: the per-provider rolling history
(`deque(maxlen=window_size)`) and the cumulative counters.  Providers
absent from the dictionaries are modelled by the empty history / zero
counters that `record_request` would install on first use. -/
structure HealthMonitor where
  window_size : ℕ
  history : String → List RequestMetrics
  counters : String → HealthCounters

/-- A freshly constructed monitor (default window 100). -/
def HealthMonitor.init (window_size : ℕ := 100) : HealthMonitor :=
  { window_size := window_size
    history := fun _ => []
    counters := fun _ => {} }

/-- `HealthMonitor.record_request`: append to the rolling history and
bump the cumulative counters (`rate_limited` on status 429,
`timeout` on error type `"timeout"`). -/
def HealthMonitor.record_request (hm : HealthMonitor) (provider endpoint : String)
    (success : Bool) (status_code : Option ℕ) (latency_ms : ℚ) (now : ℚ)
    (error_type : Option String := none) : HealthMonitor :=
  let metrics : RequestMetrics :=
    { provider := provider
      endpoint := endpoint
      success := success
      status_code := status_code
      latency_ms := latency_ms
      timestamp := now
      error_type := error_type }
  let hist0 := hm.history provider ++ [metrics]
  let hist :=
    if hm.window_size < hist0.length then hist0.drop (hist0.length - hm.window_size)
    else hist0
  let c0 := hm.counters provider
  let c1 := { c0 with total := c0.total + 1 }
  let c2 :=
    if success then { c1 with success := c1.success + 1 }
    else
      let cf := { c1 with failed := c1.failed + 1 }
      let cr :=
        if status_code = some 429 then { cf with rate_limited := cf.rate_limited + 1 }
        else cf
      if error_type = some "timeout" then { cr with timeout := cr.timeout + 1 }
      else cr
  { hm with
    history := Function.update hm.history provider hist
    counters := Function.update hm.counters provider c2 }

/-- `HealthMonitor.record_success` (status code defaults to 200). -/
def HealthMonitor.record_success (hm : HealthMonitor) (provider endpoint : String)
    (latency_ms : ℚ) (now : ℚ) (status_code : ℕ := 200) : HealthMonitor :=
  hm.record_request provider endpoint true (some status_code) latency_ms now none

/-- `HealthMonitor.record_failure`. -/
def HealthMonitor.record_failure (hm : HealthMonitor) (provider endpoint : String)
    (latency_ms : ℚ) (now : ℚ) (status_code : Option ℕ := none)
    (error_type : Option String := none) : HealthMonitor :=
  hm.record_request provider endpoint false status_code latency_ms now error_type

/-! ## Provider adapter (`src/data_loader/providers/base.py`) -/

/-- `ProviderResponse` (the debug-only `raw_response` field is
omitted). -/
structure ProviderResponse (α : Type) where
  success : Bool
  data : Option α
  provider : String
  endpoint : String
  from_cache : Bool := false
  latency_ms : ℚ := 0
  error : Option String := none
  deriving Repr, DecidableEq

/-- Exceptions caught by the `except HttpError` clause of
`BaseDataProvider.get` (all transport classes subclass `HttpError`). -/
def FetchExc.isHttpError : FetchExc → Bool
  | .rateLimitError _ => true
  | .serverError _ => true
  | .clientError _ => true
  | .timeoutError _ => true
  | .connectionError _ => true
  | .httpError _ => true
  | .valueError _ => false
  | .otherError _ _ _ => false

/-- Python `f"{x}"` for an optional integer (`None` renders as
`"None"`). -/
def optNatRepr : Option ℕ → String
  | none => "None"
  | some n => toString n

/-- One invocation of `BaseDataProvider.get`.  `fetchResult` is the
combined outcome of `self.fetch` (the transport call) and
`self.normalize` (pure): the HTTP status with the normalized payload,
or the raised exception (a normalization error surfaces as the raised
exception and lands in the generic `except` branch).  Returns the
`ProviderResponse` and the mutated cache filesystem and health
registry; by construction `get` catches every exception and never
propagates one. -/
def providerGet (prov : String) (m : CacheManager) (fs : CacheFS α)
    (hm : HealthMonitor) (endpoint ckey : String) (use_cache : Bool)
    (fetchResult : Except FetchExc (ℕ × α)) (now elapsed_ms : ℚ)
    (setFail : SetFailure) : ProviderResponse α × CacheFS α × HealthMonitor :=
  let cachedHit : Option α :=
    if use_cache then
      match m.get fs now prov ckey with
      | some entry => if entry.is_expired now then none else some entry.data
      | none => none
    else none
  match cachedHit with
  | some d =>
    ({ success := true, data := some d, provider := prov, endpoint := endpoint,
       from_cache := true, latency_ms := 0 }, fs, hm)
  | none =>
    match fetchResult with
    | .ok (status, ndata) =>
      let fs1 := if use_cache then (m.set fs prov ckey ndata now none setFail).2 else fs
      let hm1 := hm.record_success prov endpoint elapsed_ms now status
      ({ success := true, data := some ndata, provider := prov, endpoint := endpoint,
         from_cache := false, latency_ms := elapsed_ms }, fs1, hm1)
    | .error e =>
      match e with
      | .rateLimitError retry_after =>
        let hm1 := hm.record_failure prov endpoint elapsed_ms now (some 429)
          (some "rate_limit")
        ({ success := false, data := none, provider := prov, endpoint := endpoint,
           latency_ms := elapsed_ms,
           error := some ("Rate limit exceeded. Retry after: " ++
             optNatRepr retry_after ++ "s") }, fs, hm1)
      | _ =>
        if e.isHttpError then
          let hm1 := hm.record_failure prov endpoint elapsed_ms now e.status_code
            (some e.tyName.toLower)
          ({ success := false, data := none, provider := prov, endpoint := endpoint,
             latency_ms := elapsed_ms, error := some e.message }, fs, hm1)
        else
          let hm1 := hm.record_failure prov endpoint elapsed_ms now none
            (some "unexpected")
          ({ success := false, data := none, provider := prov, endpoint := endpoint,
             latency_ms := elapsed_ms,
             error := some ("Unexpected error: " ++ e.message) }, fs, hm1)

/-! ## Loader orchestrator (`src/data_loader/loader.py`) -/

/-- `OperatingMode`. -/
inductive OperatingMode where
  | live
  | read_only
  deriving Repr, DecidableEq

/-- `DataLoaderStats`. -/
structure DataLoaderStats where
  total_requests : ℕ := 0
  cache_hits : ℕ := 0
  cache_misses : ℕ := 0
  api_calls : ℕ := 0
  api_successes : ℕ := 0
  api_failures : ℕ := 0
  circuit_breaker_rejections : ℕ := 0
  deriving Repr, DecidableEq

/-- The providers registered by `DataLoader._init_providers`. -/
def knownProviders : List String := ["fmp", "polygon", "fred"]

/-- Dispatch of `provider.cache_key` on the registered providers (the
default arm is unreachable: unknown providers are rejected before the
key is derived). -/
def cacheKeyOf (provider endpoint : String) (params : Params) : String :=
  if provider = "fmp" then FMPProvider.cache_key endpoint params
  else if provider = "polygon" then PolygonProvider.cache_key endpoint params
  else if provider = "fred" then FREDProvider.cache_key endpoint params
  else generate_cache_key endpoint params

/-- The mutable state owned by `DataLoader` that `_fetch_with_resilience`
touches: operating mode, counters, the per-provider breakers (absent
entries are the freshly constructed breaker `_get_breaker` would
install), the cache, and the health registry. -/
structure LoaderState (α : Type) where
  mode : OperatingMode
  stats : DataLoaderStats
  breakers : String → Breaker
  cacheManager : CacheManager
  fs : CacheFS α
  health : HealthMonitor

/-- How `_fetch_with_resilience` finishes: a returned
`ProviderResponse`, or a raised `ReadOnlyError` / `CircuitBreakerError`. -/
inductive FetchOutcome (α : Type) where
  | response (r : ProviderResponse α)
  | readOnlyError (provider endpoint : String)
  | circuitBreakerError (provider : String) (state : CircuitState)
  deriving Repr, DecidableEq

/-- Observable side activity of one fetch: breaker queries
(`can_execute` / `get_state`), QoS slot acquisitions, and transport
attempts (invocations of `provider.fetch`). -/
structure FetchEvents where
  breaker_queries : ℕ := 0
  slot_acquisitions : ℕ := 0
  transport_attempts : ℕ := 0
  deriving Repr, DecidableEq

/-- `DataLoader._fetch_with_resilience`.  `transport i` is the combined
outcome of the transport call and normalization inside the `i`-th
invocation of `provider.get`; `now` is the wall clock and `elapsed_ms`
the measured latency.  Returns the outcome, the new loader state and
the event counts. -/
def fetchWithResilience (retryCfg : RetryConfig) (breakerCfg : CircuitBreakerConfig)
    (st : LoaderState α) (provider_name endpoint : String) (params : Params)
    (use_cache : Bool) (transport : ℕ → Except FetchExc (ℕ × α))
    (now elapsed_ms : ℚ) (setFail : SetFailure) :
    FetchOutcome α × LoaderState α × FetchEvents :=
  let st := { st with stats := { st.stats with
    total_requests := st.stats.total_requests + 1 } }
  if provider_name ∉ knownProviders then
    (.response { success := false, data := none, provider := provider_name,
                 endpoint := endpoint,
                 error := some ("Unknown provider: " ++ provider_name) },
      st, {})
  else
    let ckey := cacheKeyOf provider_name endpoint params
    -- Step 1: check cache first
    let cached : Option (CacheEntry α) :=
      if use_cache then st.cacheManager.get st.fs now provider_name ckey else none
    match cached with
    | some c =>
      if ¬ c.is_expired now then
        let st := { st with stats := { st.stats with
          cache_hits := st.stats.cache_hits + 1 } }
        (.response { success := true, data := some c.data, provider := provider_name,
                     endpoint := endpoint, from_cache := true, latency_ms := 0 },
          st, {})
      else
        -- unreachable: `get` without `ignore_expired` never returns an expired entry
        (.response { success := false, data := none, provider := provider_name,
                     endpoint := endpoint },
          st, {})
    | none =>
      let st :=
        if use_cache then
          { st with stats := { st.stats with
            cache_misses := st.stats.cache_misses + 1 } }
        else st
      -- Step 2: check operating mode
      if st.mode = .read_only then
        (.readOnlyError provider_name endpoint, st, {})
      else
        -- Step 3: check circuit breaker
        let cexec := (st.breakers provider_name).can_execute breakerCfg now
        let st := { st with breakers := Function.update st.breakers provider_name cexec.2 }
        if ¬ cexec.1 then
          let st := { st with stats := { st.stats with
            circuit_breaker_rejections := st.stats.circuit_breaker_rejections + 1 } }
          let squery := (st.breakers provider_name).state_query breakerCfg now
          let st := { st with breakers := Function.update st.breakers provider_name squery.2 }
          (.circuitBreakerError provider_name squery.1, st,
            { breaker_queries := 2 })
        else
          -- Step 4: acquire QoS slot and execute with retry
          let st := { st with stats := { st.stats with
            api_calls := st.stats.api_calls + 1 } }
          let run := retryCfg.executeState
            (fun i s =>
              let r := providerGet provider_name st.cacheManager s.1 s.2 endpoint ckey
                false (transport i) now elapsed_ms setFail
              (.ok r.1, (r.2.1, r.2.2)))
            (st.fs, st.health)
          let st := { st with fs := run.2.2.1, health := run.2.2.2 }
          let events : FetchEvents :=
            { breaker_queries := 1, slot_acquisitions := 1,
              transport_attempts := run.2.1 }
          match run.1 with
          | .ok resp =>
            let st := { st with
              breakers := Function.update st.breakers provider_name
                ((st.breakers provider_name).record_success breakerCfg now)
              stats := { st.stats with api_successes := st.stats.api_successes + 1 } }
            let st :=
              if use_cache ∧ resp.success then
                match resp.data with
                | some d =>
                  { st with fs :=
                    (st.cacheManager.set st.fs provider_name ckey d now none setFail).2 }
                | none => st
              else st
            (.response resp, st, events)
          | .exhausted last _attempts =>
            let st := { st with
              breakers := Function.update st.breakers provider_name
                ((st.breakers provider_name).record_failure breakerCfg now)
              stats := { st.stats with api_failures := st.stats.api_failures + 1 } }
            (.response { success := false, data := none, provider := provider_name,
                         endpoint := endpoint, latency_ms := elapsed_ms,
                         error := some ("All retries exhausted: " ++
                           (match last with
                            | some ex => ex.message
                            | none => "None")) },
              st, events)
          | .raised e =>
            let st := { st with
              breakers := Function.update st.breakers provider_name
                ((st.breakers provider_name).record_failure breakerCfg now)
              stats := { st.stats with api_failures := st.stats.api_failures + 1 } }
            (.response { success := false, data := none, provider := provider_name,
                         endpoint := endpoint, latency_ms := elapsed_ms,
                         error := some ("Unexpected error: " ++ e.message) },
              st, events)

/-- One fetch call issued to the orchestrator. -/
structure FetchCall (α : Type) where
  provider : String
  endpoint : String
  params : Params
  use_cache : Bool
  transport : ℕ → Except FetchExc (ℕ × α)
  now : ℚ
  elapsed_ms : ℚ
  setFail : SetFailure

/-- A sequence of completed fetch calls, threading the loader state. -/
def runFetches (retryCfg : RetryConfig) (breakerCfg : CircuitBreakerConfig)
    (st : LoaderState α) (calls : List (FetchCall α)) : LoaderState α :=
  calls.foldl
    (fun s c =>
      (fetchWithResilience retryCfg breakerCfg s c.provider c.endpoint c.params
        c.use_cache c.transport c.now c.elapsed_ms c.setFail).2.1)
    st

/-- A convenient initial loader state. -/
def LoaderState.init (α : Type) (mode : OperatingMode) : LoaderState α :=
  { mode := mode
    stats := {}
    breakers := fun _ => Breaker.init 0
    cacheManager := { ttl_days := 7, enabled := true }
    fs := { files := fun _ => none, temps := [] }
    health := HealthMonitor.init }

end Nexus

namespace Nexus

/-! ## Theorems for C4 and C6 (cache expiry and atomic set) -/

/-- C4 as written fails at exact equality: an entry whose age equals
`ttl_days * 86400` seconds is NOT expired (`is_expired` uses a strict
`>`), and `get` without `ignore_expired` returns it.  Concrete input:
`timestamp = 0`, `ttl_days = 1`, `now = 86400`. -/
theorem c4_counterexample :
    let e : CacheEntry ℕ :=
      { data := 7, timestamp := 0, ttl_days := 1, provider := "fmp", key := "k" }
    let m : CacheManager := { ttl_days := 7, enabled := true }
    let fs : CacheFS ℕ :=
      { files := fun p => if p = cachePath "fmp" "k" then some (.valid e) else none
        temps := [] }
    e.age_seconds 86400 ≥ (e.ttl_days : ℚ) * 86400 ∧
      e.is_expired 86400 = false ∧
      m.get fs 86400 "fmp" "k" false = some e := by
  refine ⟨by norm_num [CacheEntry.age_seconds], by norm_num [CacheEntry.is_expired], ?_⟩
  simp [CacheManager.get, CacheEntry.is_expired]

/-- C4 (amended: age strictly greater than `ttl_days * 86400`): such an
entry is expired; `get` without `ignore_expired` returns `none` for it
and `get` with `ignore_expired` returns the entry, whenever the cache is
enabled and the entry is present on disk. -/
theorem c4_expiry_policy (m : CacheManager) (fs : CacheFS α) (now : ℚ)
    (provider key : String) (e : CacheEntry α)
    (henabled : m.enabled = true)
    (hfile : fs.files (cachePath provider key) = some (.valid e))
    (hage : e.age_seconds now > (e.ttl_days : ℚ) * 86400) :
    e.is_expired now = true ∧
      m.get fs now provider key false = none ∧
      m.get fs now provider key true = some e := by
  have hexp : e.is_expired now = true := by
    simp only [CacheEntry.is_expired, decide_eq_true_eq]
    have := hage
    unfold CacheEntry.age_seconds at this
    linarith
  refine ⟨hexp, ?_, ?_⟩ <;> simp [CacheManager.get, henabled, hfile, hexp]

/-- C6: if `CacheManager.set` fails at any point before the rename step
(directory creation, temp-file creation, or the JSON dump — the latter
also covering a non-JSON-serializable value), then `set` returns
`false`, every file is exactly as before (so the prior entry at the key,
if any, is intact and readable, and if there was no prior entry the
target path still does not exist), and no temp file remains. -/
theorem c6_set_failure_atomic (m : CacheManager) (fs : CacheFS α)
    (provider key : String) (data : α) (now : ℚ) (ttl : Option ℤ)
    (fail : SetFailure)
    (hfail : fail = .mkdirFail ∨ fail = .mkstempFail ∨ fail = .writeFail) :
    (m.set fs provider key data now ttl fail).1 = false ∧
      (∀ p, (m.set fs provider key data now ttl fail).2.files p = fs.files p) ∧
      (m.set fs provider key data now ttl fail).2.temps = fs.temps ∧
      (∀ (now' : ℚ) (prov' key' : String) (ig : Bool),
        m.get (m.set fs provider key data now ttl fail).2 now' prov' key' ig =
          m.get fs now' prov' key' ig) ∧
      (fs.files (cachePath provider key) = none →
        (m.set fs provider key data now ttl fail).2.files (cachePath provider key) = none) := by
  have hfs : (m.set fs provider key data now ttl fail).1 = false ∧
      (m.set fs provider key data now ttl fail).2.files = fs.files ∧
      (m.set fs provider key data now ttl fail).2.temps = fs.temps := by
    rcases hfail with h | h | h <;> subst h <;>
      by_cases he : m.enabled <;>
        simp [CacheManager.set, he, List.erase_cons_head]
  refine ⟨hfs.1, fun p => by rw [hfs.2.1], hfs.2.2, fun now' prov' key' ig => ?_,
    fun h => by rw [hfs.2.1]; exact h⟩
  unfold CacheManager.get
  rw [hfs.2.1]

/-- Witness for `c6_set_failure_atomic`: an injected failure during the
temp-file write, with a prior entry present at the key. -/
theorem c6_set_failure_atomic_witness :
    let e : CacheEntry ℕ :=
      { data := 7, timestamp := 0, ttl_days := 1, provider := "fmp", key := "k" }
    let m : CacheManager := { ttl_days := 7, enabled := true }
    let fs : CacheFS ℕ :=
      { files := fun p => if p = cachePath "fmp" "k" then some (.valid e) else none
        temps := [] }
    (m.set fs "fmp" "k" 9 50 none .writeFail).1 = false ∧
      (∀ p, (m.set fs "fmp" "k" 9 50 none .writeFail).2.files p = fs.files p) ∧
      (m.set fs "fmp" "k" 9 50 none .writeFail).2.temps = fs.temps ∧
      (∀ (now' : ℚ) (prov' key' : String) (ig : Bool),
        m.get (m.set fs "fmp" "k" 9 50 none .writeFail).2 now' prov' key' ig =
          m.get fs now' prov' key' ig) ∧
      (fs.files (cachePath "fmp" "k") = none →
        (m.set fs "fmp" "k" 9 50 none .writeFail).2.files (cachePath "fmp" "k") = none) :=
  c6_set_failure_atomic _ _ "fmp" "k" 9 50 none .writeFail (Or.inr (Or.inr rfl))

/-- Witness for `c4_expiry_policy` at a concrete state. -/
theorem c4_expiry_policy_witness :
    let e : CacheEntry ℕ :=
      { data := 7, timestamp := 0, ttl_days := 1, provider := "fmp", key := "k" }
    let m : CacheManager := { ttl_days := 7, enabled := true }
    let fs : CacheFS ℕ :=
      { files := fun p => if p = cachePath "fmp" "k" then some (.valid e) else none
        temps := [] }
    e.is_expired 86401 = true ∧
      m.get fs 86401 "fmp" "k" false = none ∧
      m.get fs 86401 "fmp" "k" true = some e := by
  exact c4_expiry_policy _ _ _ _ _ _ rfl (by simp) (by norm_num [CacheEntry.age_seconds])

/-! ## Theorems for C5 (cache-key derivation) -/

theorem keyLE_trans (a b c : String × Option String) :
    keyLE a b = true → keyLE b c = true → keyLE a c = true := by
  simp only [keyLE, decide_eq_true_eq]
  exact le_trans

theorem keyLE_total (a b : String × Option String) :
    (keyLE a b || keyLE b a) = true := by
  simp only [keyLE, Bool.or_eq_true, decide_eq_true_eq]
  exact le_total a.1 b.1

/-- Sorting the parameter items is strictly sorted on keys whenever the
keys are pairwise distinct. -/
theorem sortParams_sorted_strict (l : Params) (hl : (l.map Prod.fst).Nodup) :
    List.Sorted (fun a b : String × Option String => a.1 < b.1) (sortParams l) := by
  have hsorted : List.Pairwise (fun a b => keyLE a b = true) (sortParams l) :=
    List.sorted_mergeSort keyLE_trans keyLE_total l
  have hnd : ((sortParams l).map Prod.fst).Nodup :=
    (((List.mergeSort_perm l keyLE).map Prod.fst).nodup_iff).mpr hl
  have hne : List.Pairwise (fun a b : String × Option String => a.1 ≠ b.1) (sortParams l) :=
    List.pairwise_map.mp hnd
  exact (hsorted.and hne).imp fun h =>
    lt_of_le_of_ne (by simpa [keyLE] using h.1) h.2

/-- `sorted(params.items())` is independent of the iteration order of
the mapping: permuting an association list with pairwise-distinct keys
does not change the sorted item list. -/
theorem sortParams_eq_of_perm (l₁ l₂ : Params) (hperm : l₁.Perm l₂)
    (hnodup : (l₁.map Prod.fst).Nodup) : sortParams l₁ = sortParams l₂ := by
  have hp : (sortParams l₁).Perm (sortParams l₂) :=
    (List.mergeSort_perm l₁ keyLE).trans
      (hperm.trans (List.mergeSort_perm l₂ keyLE).symm)
  have hnodup₂ : (l₂.map Prod.fst).Nodup := ((hperm.map Prod.fst).nodup_iff).mp hnodup
  haveI : IsAntisymm (String × Option String) (fun a b => a.1 < b.1) :=
    ⟨fun _ _ h1 h2 => absurd h2 (lt_asymm h1)⟩
  exact List.eq_of_perm_of_sorted hp
    (sortParams_sorted_strict l₁ hnodup) (sortParams_sorted_strict l₂ hnodup₂)

theorem hexPad_length (k n : ℕ) : (hexPad k n).length = k := by
  induction k generalizing n with
  | zero => rfl
  | succ k ih => simp [hexPad, ih]

theorem md5hex16_length (s : String) : (md5hex16 s).length = 16 := by
  simp [md5hex16, String.length, hexPad_length]

theorem hexChar_isHex (n : ℕ) (h : n < 16) : isHexDigitChar (hexChar n) = true := by
  interval_cases n <;> decide

theorem hexPad_all_hex (k n : ℕ) : ∀ c ∈ hexPad k n, isHexDigitChar c = true := by
  induction k generalizing n with
  | zero => simp [hexPad]
  | succ k ih =>
    intro c hc
    simp only [hexPad, List.mem_append, List.mem_singleton] at hc
    rcases hc with hc | hc
    · exact ih (n / 16) c hc
    · exact hc ▸ hexChar_isHex (n % 16) (Nat.mod_lt n (by norm_num))

/-- C5: (1) `FMPProvider.cache_key` is invariant under reordering of the
parameter mapping (keyword-argument keys are pairwise distinct); (2) the
`apikey` credential parameter never contributes to the key; (3) when the
concatenated key exceeds 200 characters it is replaced by
`<prefix>_<digest>` where the digest of the full key has exactly 16
lowercase-hex digits. -/
theorem c5_cache_key_properties (e : String) (params params' : Params)
    (v : Option String) (hperm : params.Perm params')
    (hnodup : (params.map Prod.fst).Nodup) :
    FMPProvider.cache_key e params = FMPProvider.cache_key e params' ∧
      FMPProvider.cache_key e (("apikey", v) :: params) =
        FMPProvider.cache_key e params ∧
      ((rawCacheKey e (params.filter (fun p => p.1 ≠ "apikey"))).length > 200 →
        FMPProvider.cache_key e params =
          e ++ "_" ++ md5hex16 (rawCacheKey e (params.filter (fun p => p.1 ≠ "apikey"))) ∧
        (md5hex16 (rawCacheKey e (params.filter (fun p => p.1 ≠ "apikey")))).length = 16 ∧
        ∀ c ∈ (md5hex16 (rawCacheKey e (params.filter (fun p => p.1 ≠ "apikey")))).data,
          isHexDigitChar c = true) := by
  refine ⟨?_, ?_, ?_⟩
  · have hsort : sortParams (params.filter (fun p => p.1 ≠ "apikey")) =
        sortParams (params'.filter (fun p => p.1 ≠ "apikey")) := by
      apply sortParams_eq_of_perm _ _ (hperm.filter _)
      exact ((List.filter_sublist params).map Prod.fst).nodup hnodup
    simp only [FMPProvider.cache_key, generate_cache_key, rawCacheKey, hsort]
  · simp [FMPProvider.cache_key]
  · intro hlong
    refine ⟨?_, md5hex16_length _, ?_⟩
    · simp only [FMPProvider.cache_key, generate_cache_key, if_pos hlong]
    · intro c hc
      exact hexPad_all_hex 16 _ c hc

/-- Witness for `c5_cache_key_properties`: a concrete two-parameter
mapping and its reversal. -/
theorem c5_cache_key_properties_witness :
    FMPProvider.cache_key "profile"
        [("symbol", some "AAPL"), ("period", some "annual")] =
      FMPProvider.cache_key "profile"
        [("period", some "annual"), ("symbol", some "AAPL")] ∧
      FMPProvider.cache_key "profile"
          (("apikey", some "SECRET") ::
            [("symbol", some "AAPL"), ("period", some "annual")]) =
        FMPProvider.cache_key "profile"
          [("symbol", some "AAPL"), ("period", some "annual")] ∧
      ((rawCacheKey "profile"
          ([("symbol", some "AAPL"), ("period", some "annual")].filter
            (fun p => p.1 ≠ "apikey"))).length > 200 →
        FMPProvider.cache_key "profile"
            [("symbol", some "AAPL"), ("period", some "annual")] =
          "profile" ++ "_" ++ md5hex16 (rawCacheKey "profile"
            ([("symbol", some "AAPL"), ("period", some "annual")].filter
              (fun p => p.1 ≠ "apikey"))) ∧
        (md5hex16 (rawCacheKey "profile"
          ([("symbol", some "AAPL"), ("period", some "annual")].filter
            (fun p => p.1 ≠ "apikey")))).length = 16 ∧
        ∀ c ∈ (md5hex16 (rawCacheKey "profile"
          ([("symbol", some "AAPL"), ("period", some "annual")].filter
            (fun p => p.1 ≠ "apikey")))).data, isHexDigitChar c = true) :=
  c5_cache_key_properties "profile"
    [("symbol", some "AAPL"), ("period", some "annual")]
    [("period", some "annual"), ("symbol", some "AAPL")]
    (some "SECRET") (List.Perm.swap _ _ _) (by decide)

/-! ## Theorems for C2 (transport error classification) -/

/-- C2 as written fails for non-2xx statuses outside 400–599: a parsed
response with status 304 raises nothing and is returned to the caller as
a `Response`, despite not being 2xx. -/
theorem c2_counterexample :
    let r : HttpResponse := { status := 304, headers := [] }
    r.is_success = false ∧ requestResult r = .ok r := by
  constructor
  · decide
  · rfl

/-- C2 (amended: statuses 400–599): for every parsed response whose
status is in 400–599 the transport raises the matching classified error
— 429 raises `RateLimitError` carrying the parsed `Retry-After`,
500–599 raises `ServerError`, any other 400–499 raises `ClientError` —
and never returns such a response to the caller.  (1xx/3xx/≥600
statuses pass through as responses, per `c2_counterexample`.) -/
theorem c2_error_classification (r : HttpResponse)
    (hrange : 400 ≤ r.status ∧ r.status < 600) :
    (r.status = 429 →
      requestResult r = .error (.rateLimitError (parseRetryAfter r.headers))) ∧
      (500 ≤ r.status → requestResult r = .error (.serverError r.status)) ∧
      (r.status < 500 → r.status ≠ 429 →
        requestResult r = .error (.clientError r.status)) ∧
      (∀ r' : HttpResponse, requestResult r ≠ .ok r') := by
  obtain ⟨h4, h6⟩ := hrange
  have hns : r.is_success = false := by
    simp only [HttpResponse.is_success, decide_eq_false_iff_not]
    omega
  refine ⟨?_, ?_, ?_, ?_⟩
  · intro h429
    simp [requestResult, checkResponse, hns, HttpResponse.is_rate_limited, h429]
  · intro h5
    have : r.is_rate_limited = false := by
      simp only [HttpResponse.is_rate_limited, decide_eq_false_iff_not]
      omega
    simp [requestResult, checkResponse, hns, this, HttpResponse.is_server_error, h5, h6]
  · intro h5 h429
    have hrl : r.is_rate_limited = false := by
      simp only [HttpResponse.is_rate_limited, decide_eq_false_iff_not]
      exact h429
    have hsv : r.is_server_error = false := by
      simp only [HttpResponse.is_server_error, decide_eq_false_iff_not]
      omega
    simp [requestResult, checkResponse, hns, hrl, hsv, h4, h5]
  · intro r' hok
    by_cases h429 : r.status = 429
    · simp [requestResult, checkResponse, hns, HttpResponse.is_rate_limited, h429] at hok
    · have hrl : r.is_rate_limited = false := by
        simp only [HttpResponse.is_rate_limited, decide_eq_false_iff_not]
        exact h429
      by_cases h5 : 500 ≤ r.status
      · simp [requestResult, checkResponse, hns, hrl,
          HttpResponse.is_server_error, h5, h6] at hok
      · have hsv : r.is_server_error = false := by
          simp only [HttpResponse.is_server_error, decide_eq_false_iff_not]
          omega
        have h5' : r.status < 500 := by omega
        simp [requestResult, checkResponse, hns, hrl, hsv, h4, h5'] at hok

/-- Witness for `c2_error_classification` at a concrete 429 response
with a parseable `Retry-After` header. -/
theorem c2_error_classification_witness :
    let r : HttpResponse := { status := 429, headers := [("Retry-After", "30")] }
    (r.status = 429 →
      requestResult r = .error (.rateLimitError (parseRetryAfter r.headers))) ∧
      (500 ≤ r.status → requestResult r = .error (.serverError r.status)) ∧
      (r.status < 500 → r.status ≠ 429 →
        requestResult r = .error (.clientError r.status)) ∧
      (∀ r' : HttpResponse, requestResult r ≠ .ok r') :=
  c2_error_classification { status := 429, headers := [("Retry-After", "30")] }
    (by norm_num)

/-! ## Theorems for C7 (circuit-breaker transition table) -/

/-- C7: the breaker's state mutations match the transition table.
Closed → Open on a recorded failure exactly when the (freshly appended)
window reaches `min_requests` and its error rate reaches
`error_threshold`; with the default configuration it trips at exactly
2 failures out of 10 and stays Closed at 1 of 10.  Open → Half-Open on a
state query exactly when `now - last_failure_time ≥ recovery_timeout`
(wall-clock failure timestamps are positive).  Half-Open → Closed on a
recorded success exactly when the consecutive-success count reaches
`half_open_max_requests`; Half-Open → Open on any recorded failure.  No
other operation mutates the state field. -/
theorem c7_breaker_transition_table (br : Breaker) (cfg : CircuitBreakerConfig)
    (now : ℚ) :
    (br.state = .closed →
      (br.record_failure cfg now).state =
        (if (pushWindow cfg.window_size br.requests false).length ≥ cfg.min_requests ∧
            errorRate (pushWindow cfg.window_size br.requests false) ≥ cfg.error_threshold
          then .open_ else .closed)) ∧
      (br.state = .closed → (br.record_success cfg now).state = .closed) ∧
      (∀ t : ℚ, br.state = .open_ → br.last_failure_time = some t → 0 < t →
        (br.state_query cfg now).1 =
          (if now - t ≥ cfg.recovery_timeout then .half_open else .open_)) ∧
      (br.state = .open_ → (br.record_success cfg now).state = .open_ ∧
        (br.record_failure cfg now).state = .open_) ∧
      (br.state = .half_open →
        (br.record_success cfg now).state =
          (if br.consecutive_successes + 1 ≥ cfg.half_open_max_requests
            then .closed else .half_open)) ∧
      (br.state = .half_open → (br.record_failure cfg now).state = .open_) ∧
      (br.state ≠ .open_ → (br.state_query cfg now).1 = br.state) ∧
      ((({ Breaker.init 0 with
            requests := List.replicate 8 true ++ [false] } : Breaker).record_failure
          {} 1).state = .open_ ∧
        (({ Breaker.init 0 with
            requests := List.replicate 9 true } : Breaker).record_failure
          {} 1).state = .closed) := by
  refine ⟨?_, ?_, ?_, ?_, ?_, ?_, ?_, ?_, ?_⟩
  · intro hcl
    by_cases hcond : (pushWindow cfg.window_size br.requests false).length ≥ cfg.min_requests ∧
        errorRate (pushWindow cfg.window_size br.requests false) ≥ cfg.error_threshold
    · simp [Breaker.record_failure, Breaker.transition_to, hcl, hcond]
    · simp [Breaker.record_failure, Breaker.transition_to, hcl, hcond]
  · intro hcl
    simp [Breaker.record_success, hcl]
  · intro t hop hlf ht
    by_cases hto : now - t ≥ cfg.recovery_timeout
    · simp [Breaker.state_query, Breaker.check_state_transition, Breaker.transition_to,
        hop, hlf, ht.ne.symm, hto]
    · simp [Breaker.state_query, Breaker.check_state_transition, Breaker.transition_to,
        hop, hlf, hto]
  · intro hop
    constructor
    · simp [Breaker.record_success, hop]
    · simp [Breaker.record_failure, hop]
  · intro hho
    by_cases hcond : br.consecutive_successes + 1 ≥ cfg.half_open_max_requests
    · simp [Breaker.record_success, Breaker.transition_to, hho, hcond]
    · simp [Breaker.record_success, Breaker.transition_to, hho, hcond]
  · intro hho
    simp [Breaker.record_failure, Breaker.transition_to, hho]
  · intro hnop
    cases hst : br.state <;>
      simp_all [Breaker.state_query, Breaker.check_state_transition]
  · norm_num [Breaker.record_failure, Breaker.transition_to, Breaker.init,
      pushWindow, errorRate, List.replicate, List.countP, List.countP.go]
    rfl
  · norm_num [Breaker.record_failure, Breaker.transition_to, Breaker.init,
      pushWindow, errorRate, List.replicate, List.countP, List.countP.go]
    rfl

/-- Witness for `c7_breaker_transition_table`: a half-open breaker
returns to Open on a recorded failure, and an open breaker queried after
the recovery timeout reads Half-Open. -/
theorem c7_breaker_transition_table_witness :
    (({ state := .half_open, requests := [], last_failure_time := none,
        last_state_change := 0, consecutive_successes := 0,
        half_open_requests := 0 } : Breaker).record_failure {} 5).state = .open_ ∧
      (({ state := .open_, requests := [false], last_failure_time := some 1,
          last_state_change := 1, consecutive_successes := 0,
          half_open_requests := 0 } : Breaker).state_query {} 100).1 = .half_open := by
  constructor
  · exact (c7_breaker_transition_table _ {} 5).2.2.2.2.2.1 rfl
  · have h := (c7_breaker_transition_table
      { state := .open_, requests := [false], last_failure_time := some 1,
        last_state_change := 1, consecutive_successes := 0,
        half_open_requests := 0 } {} 100).2.2.1 1 rfl rfl (by norm_num)
    rw [if_pos (by norm_num)] at h
    exact h

/-! ## Theorems for C8 (retry driver) -/

/-- The retry loop performs at most `remaining` invocations. -/
theorem executeLoop_invocations_le (cfg : RetryConfig) (f : ℕ → Except FetchExc α) :
    ∀ (remaining attempt : ℕ) (last : Option FetchExc),
      (cfg.executeLoop f remaining attempt last).2 ≤ remaining := by
  intro remaining
  induction remaining with
  | zero => intro attempt last; simp [RetryConfig.executeLoop]
  | succ r ih =>
    intro attempt last
    simp only [RetryConfig.executeLoop]
    cases f attempt with
    | ok a => simp
    | error e =>
      by_cases hr : cfg.is_exception_retryable e
      · simpa [hr] using Nat.succ_le_succ (ih (attempt + 1) (some e))
      · simp [hr]

/-- When every invocation fails with a retryable exception, the loop
consumes all its iterations and exhausts with the last error. -/
theorem executeLoop_exhausts (cfg : RetryConfig) (f : ℕ → Except FetchExc α)
    (err : ℕ → FetchExc) (hf : ∀ i, f i = .error (err i))
    (hr : ∀ i, cfg.is_exception_retryable (err i) = true) :
    ∀ (remaining attempt : ℕ) (last : Option FetchExc), 0 < remaining →
      cfg.executeLoop f remaining attempt last =
        (.exhausted (some (err (attempt + remaining - 1))) (cfg.max_retries + 1),
          remaining) := by
  intro remaining
  induction remaining with
  | zero => intro attempt last h; omega
  | succ r ih =>
    intro attempt last _
    simp only [RetryConfig.executeLoop, hf attempt, hr attempt, if_true]
    rcases Nat.eq_zero_or_pos r with hr0 | hr0
    · subst hr0
      simp [RetryConfig.executeLoop]
    · rw [ih (attempt + 1) (some (err attempt)) hr0]
      have : attempt + 1 + r - 1 = attempt + (r + 1) - 1 := by omega
      simp [this]

/-- C8: (1) the wrapped function is invoked at most `max_retries + 1`
times; (2) an error carrying a nonzero status code listed in
`non_retryable_status_codes` is re-raised unchanged after exactly one
invocation; (3) when every invocation fails with a retryable error,
`execute` raises `RetryError` carrying the last underlying error and the
attempt count `max_retries + 1`, having invoked the function exactly
`max_retries + 1` times. -/
theorem c8_retry_driver (cfg : RetryConfig) (f : ℕ → Except FetchExc α)
    (e : FetchExc) (c : ℕ) :
    (cfg.execute f).2 ≤ cfg.max_retries + 1 ∧
      (f 0 = .error e → e.status_code = some c → c ≠ 0 →
        c ∈ cfg.non_retryable_status_codes →
        cfg.execute f = (.raised e, 1)) ∧
      (∀ err : ℕ → FetchExc, (∀ i, f i = .error (err i)) →
        (∀ i, cfg.is_exception_retryable (err i) = true) →
        cfg.execute f =
          (.exhausted (some (err cfg.max_retries)) (cfg.max_retries + 1),
            cfg.max_retries + 1)) := by
  refine ⟨executeLoop_invocations_le cfg f _ 0 none, ?_, ?_⟩
  · intro hf0 hsc hc0 hmem
    have hnr : cfg.is_exception_retryable e = false := by
      unfold RetryConfig.is_exception_retryable
      by_cases hal : cfg.retryable_exceptions ≠ [] ∧ e.tyName ∉ cfg.retryable_exceptions
      · simp [hal]
      · simp only [hal, if_false]
        rw [hsc]
        simp [hc0, hmem]
    simp [RetryConfig.execute, RetryConfig.executeLoop, hf0, hnr]
  · intro err hf hr
    have h := executeLoop_exhausts cfg f err hf hr (cfg.max_retries + 1) 0 none
      (Nat.succ_pos _)
    simpa using h

/-! ## Theorems for C10 (provider `get` isolates exceptions) -/

/-- `HealthMonitor.record_request` with `success=False` bumps the
`failed` and `total` cumulative counters and appends a failure record
(visible as the last history entry whenever the window holds at least
one element). -/
theorem record_request_failure (hm : HealthMonitor) (p ep : String)
    (sc : Option ℕ) (lat now : ℚ) (et : Option String) (hw : 1 ≤ hm.window_size) :
    (((hm.record_request p ep false sc lat now et).counters p).failed =
        (hm.counters p).failed + 1) ∧
      (((hm.record_request p ep false sc lat now et).counters p).total =
        (hm.counters p).total + 1) ∧
      (((hm.record_request p ep false sc lat now et).history p).getLast? =
        some { provider := p, endpoint := ep, success := false, status_code := sc,
               latency_ms := lat, timestamp := now, error_type := et }) := by
  refine ⟨?_, ?_, ?_⟩
  · simp only [HealthMonitor.record_request, Function.update_same,
      Bool.false_eq_true, if_false]
    split_ifs <;> rfl
  · simp only [HealthMonitor.record_request, Function.update_same,
      Bool.false_eq_true, if_false]
    split_ifs <;> rfl
  · simp only [HealthMonitor.record_request, Function.update_same,
      Bool.false_eq_true, if_false]
    split_ifs with h
    · rw [List.getLast?_drop,
        if_neg (by simp only [List.length_append, List.length_singleton]; omega),
        List.getLast?_concat]
    · exact List.getLast?_concat _

/-- C10: for every exception raised by the underlying fetch or
normalization, `BaseDataProvider.get` does not propagate it: it returns
a failure-shaped `ProviderResponse` (success `False`, an error message,
the provider and endpoint filled in, no data, no cache write) after
recording a failure in the health registry for that provider and
endpoint.  The hypothesis states that the call reached the fetch (no
fresh cache hit short-circuits it). -/
theorem c10_provider_get_isolates_exceptions (prov : String) (m : CacheManager)
    (fs : CacheFS α) (hm : HealthMonitor) (endpoint ckey : String)
    (use_cache : Bool) (e : FetchExc) (now elapsed_ms : ℚ) (setFail : SetFailure)
    (hw : 1 ≤ hm.window_size)
    (hnohit : use_cache = false ∨ m.get fs now prov ckey = none) :
    (providerGet prov m fs hm endpoint ckey use_cache (.error e) now elapsed_ms
        setFail).1.success = false ∧
      (providerGet prov m fs hm endpoint ckey use_cache (.error e) now elapsed_ms
        setFail).1.data = none ∧
      (providerGet prov m fs hm endpoint ckey use_cache (.error e) now elapsed_ms
        setFail).1.provider = prov ∧
      (providerGet prov m fs hm endpoint ckey use_cache (.error e) now elapsed_ms
        setFail).1.endpoint = endpoint ∧
      (providerGet prov m fs hm endpoint ckey use_cache (.error e) now elapsed_ms
        setFail).1.error.isSome = true ∧
      (providerGet prov m fs hm endpoint ckey use_cache (.error e) now elapsed_ms
        setFail).2.1 = fs ∧
      (((providerGet prov m fs hm endpoint ckey use_cache (.error e) now elapsed_ms
          setFail).2.2.counters prov).failed = (hm.counters prov).failed + 1) ∧
      (((providerGet prov m fs hm endpoint ckey use_cache (.error e) now elapsed_ms
          setFail).2.2.counters prov).total = (hm.counters prov).total + 1) ∧
      (∃ rec : RequestMetrics,
        ((providerGet prov m fs hm endpoint ckey use_cache (.error e) now elapsed_ms
          setFail).2.2.history prov).getLast? = some rec ∧
        rec.success = false ∧ rec.provider = prov ∧ rec.endpoint = endpoint) := by
  have hch : (if use_cache then
      match m.get fs now prov ckey with
      | some entry => if entry.is_expired now then none else some entry.data
      | none => none
      else (none : Option α)) = none := by
    rcases hnohit with h | h
    · simp [h]
    · simp [h]
  cases e
  all_goals
    refine ⟨?_, ?_, ?_, ?_, ?_, ?_, ?_, ?_, ?_⟩
  all_goals
    simp only [providerGet, hch, FetchExc.isHttpError, HealthMonitor.record_failure,
      if_true, Bool.false_eq_true, if_false]
  all_goals
    first
    | rfl
    | exact (record_request_failure hm prov endpoint _ elapsed_ms now _ hw).1
    | exact (record_request_failure hm prov endpoint _ elapsed_ms now _ hw).2.1
    | exact ⟨_, (record_request_failure hm prov endpoint _ elapsed_ms now _ hw).2.2,
        rfl, rfl, rfl⟩

/-- Witness for `c10_provider_get_isolates_exceptions`: a
`ServerError(500)` raised against an empty cache. -/
theorem c10_provider_get_isolates_exceptions_witness :
    let m : CacheManager := { ttl_days := 7, enabled := true }
    let fs : CacheFS ℕ := { files := fun _ => none, temps := [] }
    let hm := HealthMonitor.init
    (providerGet "fmp" m fs hm "profile" "profile_symbol=AAPL" false
        (.error (.serverError 500)) 10 25 .noFail).1.success = false ∧
      (providerGet "fmp" m fs hm "profile" "profile_symbol=AAPL" false
        (.error (.serverError 500)) 10 25 .noFail).1.data = none ∧
      (providerGet "fmp" m fs hm "profile" "profile_symbol=AAPL" false
        (.error (.serverError 500)) 10 25 .noFail).1.provider = "fmp" ∧
      (providerGet "fmp" m fs hm "profile" "profile_symbol=AAPL" false
        (.error (.serverError 500)) 10 25 .noFail).1.endpoint = "profile" ∧
      (providerGet "fmp" m fs hm "profile" "profile_symbol=AAPL" false
        (.error (.serverError 500)) 10 25 .noFail).1.error.isSome = true ∧
      (providerGet "fmp" m fs hm "profile" "profile_symbol=AAPL" false
        (.error (.serverError 500)) 10 25 .noFail).2.1 = fs ∧
      (((providerGet "fmp" m fs hm "profile" "profile_symbol=AAPL" false
          (.error (.serverError 500)) 10 25 .noFail).2.2.counters "fmp").failed =
        (hm.counters "fmp").failed + 1) ∧
      (((providerGet "fmp" m fs hm "profile" "profile_symbol=AAPL" false
          (.error (.serverError 500)) 10 25 .noFail).2.2.counters "fmp").total =
        (hm.counters "fmp").total + 1) ∧
      (∃ rec : RequestMetrics,
        ((providerGet "fmp" m fs hm "profile" "profile_symbol=AAPL" false
          (.error (.serverError 500)) 10 25 .noFail).2.2.history "fmp").getLast? =
            some rec ∧
        rec.success = false ∧ rec.provider = "fmp" ∧ rec.endpoint = "profile") :=
  c10_provider_get_isolates_exceptions "fmp" _ _ _ "profile" "profile_symbol=AAPL"
    false (.serverError 500) 10 25 .noFail (by decide) (Or.inl rfl)

/-! ## Theorems for C9 (read-only gate) -/

/-- `CacheManager.get` without `ignore_expired` never returns an expired
entry. -/
theorem get_not_expired (m : CacheManager) (fs : CacheFS α) (now : ℚ)
    (p k : String) (c : CacheEntry α) (h : m.get fs now p k false = some c) :
    c.is_expired now = false := by
  unfold CacheManager.get at h
  by_cases h1 : ¬ m.enabled
  · rw [if_pos h1] at h; cases h
  · rw [if_neg h1] at h
    rcases hf : fs.files (cachePath p k) with _ | fc
    · rw [hf] at h; cases h
    · rw [hf] at h
      cases fc with
      | corrupt => cases h
      | valid e =>
        by_cases h2 : e.is_expired now = true
        · simp [h2] at h
        · simp only [h2, false_and, if_false, Option.some.injEq] at h
          cases h
          exact Bool.not_eq_true _ |>.mp h2

/-- C9 (amended: for fetches with `use_cache=True` naming a known
provider): in ReadOnly mode, a valid cached entry for the derived key is
served with `from_cache=True`; otherwise the fetch raises
`ReadOnlyError` carrying the requested provider and endpoint.  In both
cases the only state change is the statistics counters — no breaker
query, no slot acquisition and no transport attempt occurs (all event
counts are zero, and breakers, cache and health registry are
untouched). -/
theorem c9_read_only_gate (retryCfg : RetryConfig) (breakerCfg : CircuitBreakerConfig)
    (st : LoaderState α) (provider endpoint : String) (params : Params)
    (transport : ℕ → Except FetchExc (ℕ × α)) (now elapsed_ms : ℚ)
    (setFail : SetFailure)
    (hmode : st.mode = .read_only) (hknown : provider ∈ knownProviders) :
    (∀ c : CacheEntry α,
      st.cacheManager.get st.fs now provider (cacheKeyOf provider endpoint params) =
          some c →
      fetchWithResilience retryCfg breakerCfg st provider endpoint params true
          transport now elapsed_ms setFail =
        (.response { success := true, data := some c.data, provider := provider,
                     endpoint := endpoint, from_cache := true, latency_ms := 0 },
          { st with stats := { st.stats with
              total_requests := st.stats.total_requests + 1,
              cache_hits := st.stats.cache_hits + 1 } },
          {})) ∧
      (st.cacheManager.get st.fs now provider (cacheKeyOf provider endpoint params) =
          none →
        fetchWithResilience retryCfg breakerCfg st provider endpoint params true
            transport now elapsed_ms setFail =
          (.readOnlyError provider endpoint,
            { st with stats := { st.stats with
                total_requests := st.stats.total_requests + 1,
                cache_misses := st.stats.cache_misses + 1 } },
            {})) := by
  constructor
  · intro c hc
    have hexp := get_not_expired st.cacheManager st.fs now provider
      (cacheKeyOf provider endpoint params) c hc
    simp [fetchWithResilience, hknown, hc, hexp]
  · intro hc
    simp [fetchWithResilience, hknown, hc, hmode]

/-- C9 as written fails for fetches that bypass the cache: in ReadOnly
mode with a valid (unexpired) entry stored for the derived key, a fetch
with `use_cache=False` raises `ReadOnlyError` instead of returning the
cached entry. -/
theorem c9_counterexample :
    let key := cacheKeyOf "fmp" "profile" [("symbol", some "AAPL")]
    let e : CacheEntry ℕ :=
      { data := 42, timestamp := 0, ttl_days := 7, provider := "fmp", key := key }
    let st : LoaderState ℕ :=
      { LoaderState.init ℕ .read_only with
        fs := { files := fun p => if p = cachePath "fmp" key then some (.valid e)
                  else none
                temps := [] } }
    (st.cacheManager.get st.fs 10 "fmp" key = some e) ∧
      (fetchWithResilience {} {} st "fmp" "profile" [("symbol", some "AAPL")] false
        (fun _ => .ok (200, 42)) 10 0 .noFail).1 = .readOnlyError "fmp" "profile" := by
  constructor
  · norm_num [CacheManager.get, CacheEntry.is_expired, LoaderState.init]
  · norm_num [fetchWithResilience, LoaderState.init, knownProviders]

/-- Witness for `c9_read_only_gate`: the cache-hit arm at a concrete
state. -/
theorem c9_read_only_gate_witness :
    let key := cacheKeyOf "fmp" "profile" [("symbol", some "AAPL")]
    let e : CacheEntry ℕ :=
      { data := 42, timestamp := 0, ttl_days := 7, provider := "fmp", key := key }
    let st : LoaderState ℕ :=
      { LoaderState.init ℕ .read_only with
        fs := { files := fun p => if p = cachePath "fmp" key then some (.valid e)
                  else none
                temps := [] } }
    fetchWithResilience {} {} st "fmp" "profile" [("symbol", some "AAPL")] true
        (fun _ => .ok (200, 42)) 10 0 .noFail =
      (.response { success := true, data := some e.data, provider := "fmp",
                   endpoint := "profile", from_cache := true, latency_ms := 0 },
        { st with stats := { st.stats with
            total_requests := st.stats.total_requests + 1,
            cache_hits := st.stats.cache_hits + 1 } },
        {}) := by
  intro key e st
  exact (c9_read_only_gate {} {} st "fmp" "profile" [("symbol", some "AAPL")]
    (fun _ => .ok (200, 42)) 10 0 .noFail rfl (by decide)).1 e
    (by norm_num [CacheManager.get, CacheEntry.is_expired, LoaderState.init, st, e, key])

/-! ## Theorems for C3 (loader counter invariant) -/

/-- Any single fetch with `use_cache=True` on a known provider
increments `total_requests` by one and `cache_hits + cache_misses` by
one. -/
theorem fetch_counts_step (retryCfg : RetryConfig) (breakerCfg : CircuitBreakerConfig)
    (st : LoaderState α) (provider endpoint : String) (params : Params)
    (transport : ℕ → Except FetchExc (ℕ × α)) (now elapsed_ms : ℚ)
    (setFail : SetFailure) (hknown : provider ∈ knownProviders) :
    ((fetchWithResilience retryCfg breakerCfg st provider endpoint params true
        transport now elapsed_ms setFail).2.1.stats.total_requests =
      st.stats.total_requests + 1) ∧
      ((fetchWithResilience retryCfg breakerCfg st provider endpoint params true
          transport now elapsed_ms setFail).2.1.stats.cache_hits +
        (fetchWithResilience retryCfg breakerCfg st provider endpoint params true
          transport now elapsed_ms setFail).2.1.stats.cache_misses =
        st.stats.cache_hits + st.stats.cache_misses + 1) := by
  rcases hc : st.cacheManager.get st.fs now provider
      (cacheKeyOf provider endpoint params) with _ | c
  · by_cases hmode : st.mode = .read_only
    · constructor <;> (simp [fetchWithResilience, hknown, hc, hmode]; try omega)
    · have hk : ¬ (provider ∉ knownProviders) := by simpa using hknown
      constructor <;>
        · simp only [fetchWithResilience, hc, if_neg hk, if_neg hmode,
            eq_self_iff_true, if_true]
          repeat' split
          all_goals try simp
          all_goals omega
  · have hexp := get_not_expired st.cacheManager st.fs now provider
      (cacheKeyOf provider endpoint params) c hc
    constructor <;> (simp [fetchWithResilience, hknown, hc, hexp]; try omega)

theorem runFetches_cons (retryCfg : RetryConfig) (breakerCfg : CircuitBreakerConfig)
    (st : LoaderState α) (c : FetchCall α) (cs : List (FetchCall α)) :
    runFetches retryCfg breakerCfg st (c :: cs) =
      runFetches retryCfg breakerCfg
        ((fetchWithResilience retryCfg breakerCfg st c.provider c.endpoint c.params
          c.use_cache c.transport c.now c.elapsed_ms c.setFail).2.1) cs := rfl

/-- C3 (amended: for fetch calls with `use_cache=True` naming known
providers): after every completed fetch, the cumulative loader counters
satisfy `total_requests == cache_hits + cache_misses`.  (A call with
`use_cache=False`, or one naming an unknown provider, increments
`total_requests` without touching either cache counter — see
`c3_counterexample`.) -/
theorem c3_counter_invariant (retryCfg : RetryConfig)
    (breakerCfg : CircuitBreakerConfig) (st : LoaderState α)
    (calls : List (FetchCall α))
    (hinv : st.stats.total_requests = st.stats.cache_hits + st.stats.cache_misses)
    (hcalls : ∀ call ∈ calls, call.use_cache = true ∧
      call.provider ∈ knownProviders) :
    (runFetches retryCfg breakerCfg st calls).stats.total_requests =
      (runFetches retryCfg breakerCfg st calls).stats.cache_hits +
        (runFetches retryCfg breakerCfg st calls).stats.cache_misses := by
  induction calls generalizing st with
  | nil => simpa [runFetches] using hinv
  | cons c cs ih =>
    rw [runFetches_cons]
    have hc := hcalls c (List.mem_cons_self _ _)
    obtain ⟨h1, h2⟩ := fetch_counts_step retryCfg breakerCfg st c.provider c.endpoint
      c.params c.transport c.now c.elapsed_ms c.setFail hc.2
    rw [hc.1]
    exact ih _ (by omega) (fun x hx => hcalls x (List.mem_cons_of_mem _ hx))

/-- C3 as written fails for fetches that bypass the cache or name an
unknown provider: a single completed fetch with `use_cache=False` (on a
healthy transport) leaves `total_requests = 1` while both cache counters
stay 0. -/
theorem c3_counterexample :
    (runFetches {} {} (LoaderState.init ℕ .live)
        [{ provider := "fmp", endpoint := "profile",
           params := [("symbol", some "AAPL")], use_cache := false,
           transport := fun _ => .ok (200, 42), now := 10, elapsed_ms := 5,
           setFail := .noFail }]).stats.total_requests = 1 ∧
      (runFetches {} {} (LoaderState.init ℕ .live)
        [{ provider := "fmp", endpoint := "profile",
           params := [("symbol", some "AAPL")], use_cache := false,
           transport := fun _ => .ok (200, 42), now := 10, elapsed_ms := 5,
           setFail := .noFail }]).stats.cache_hits = 0 ∧
      (runFetches {} {} (LoaderState.init ℕ .live)
        [{ provider := "fmp", endpoint := "profile",
           params := [("symbol", some "AAPL")], use_cache := false,
           transport := fun _ => .ok (200, 42), now := 10, elapsed_ms := 5,
           setFail := .noFail }]).stats.cache_misses = 0 ∧
      (runFetches {} {} (LoaderState.init ℕ .live)
        [{ provider := "fmp", endpoint := "profile",
           params := [("symbol", some "AAPL")], use_cache := false,
           transport := fun _ => .ok (200, 42), now := 10, elapsed_ms := 5,
           setFail := .noFail }]).stats.total_requests ≠
        (runFetches {} {} (LoaderState.init ℕ .live)
          [{ provider := "fmp", endpoint := "profile",
             params := [("symbol", some "AAPL")], use_cache := false,
             transport := fun _ => .ok (200, 42), now := 10, elapsed_ms := 5,
             setFail := .noFail }]).stats.cache_hits +
          (runFetches {} {} (LoaderState.init ℕ .live)
            [{ provider := "fmp", endpoint := "profile",
               params := [("symbol", some "AAPL")], use_cache := false,
               transport := fun _ => .ok (200, 42), now := 10, elapsed_ms := 5,
               setFail := .noFail }]).stats.cache_misses := by
  refine ⟨?_, ?_, ?_, ?_⟩ <;>
    simp [runFetches, fetchWithResilience, LoaderState.init, knownProviders,
      CacheManager.get, Breaker.can_execute, Breaker.check_state_transition,
      Breaker.init, RetryConfig.executeState, RetryConfig.executeStateLoop,
      providerGet]

/-- Witness for `c3_counter_invariant`: one cache-using fetch from the
initial state. -/
theorem c3_counter_invariant_witness :
    (runFetches {} {} (LoaderState.init ℕ .live)
        [{ provider := "fmp", endpoint := "profile",
           params := [("symbol", some "AAPL")], use_cache := true,
           transport := fun _ => .ok (200, 42), now := 10, elapsed_ms := 5,
           setFail := .noFail }]).stats.total_requests =
      (runFetches {} {} (LoaderState.init ℕ .live)
        [{ provider := "fmp", endpoint := "profile",
           params := [("symbol", some "AAPL")], use_cache := true,
           transport := fun _ => .ok (200, 42), now := 10, elapsed_ms := 5,
           setFail := .noFail }]).stats.cache_hits +
        (runFetches {} {} (LoaderState.init ℕ .live)
        [{ provider := "fmp", endpoint := "profile",
           params := [("symbol", some "AAPL")], use_cache := true,
           transport := fun _ => .ok (200, 42), now := 10, elapsed_ms := 5,
           setFail := .noFail }]).stats.cache_misses :=
  c3_counter_invariant {} {} (LoaderState.init ℕ .live) _ rfl
    (by intro call hcall
        simp only [List.mem_singleton] at hcall
        subst hcall
        exact ⟨rfl, by decide⟩)

/-! ## Theorem for C1 (resilience wiring on transport failure) -/

/-- C1 evaluation at the failing input: a fetch whose every transport
attempt raises `ServerError(500)` (a retryable error).  Because
`BaseDataProvider.get` catches the exception and returns a
failure-shaped response, the retry driver observes a *successful* first
invocation: only one transport attempt is made, the orchestrator
records a **success** on the circuit breaker (`requests = [true]`,
`consecutive_successes = 1`), counts the call under `api_successes`,
and returns a failure response whose error string is
`"Server error: 500"` — the `RetryError` branch with its
`"All retries exhausted"` prefix is never reached.  Only the health
registry records the failure, via `get` itself. -/
theorem c1_code_evaluation :
    (fetchWithResilience {} {} (LoaderState.init ℕ .live) "fmp" "profile"
        [("symbol", some "AAPL")] true (fun _ => .error (.serverError 500))
        10 5 .noFail).1 =
      .response { success := false, data := none, provider := "fmp",
                  endpoint := "profile", from_cache := false, latency_ms := 5,
                  error := some "Server error: 500" } ∧
      (fetchWithResilience {} {} (LoaderState.init ℕ .live) "fmp" "profile"
        [("symbol", some "AAPL")] true (fun _ => .error (.serverError 500))
        10 5 .noFail).2.2.transport_attempts = 1 ∧
      ((fetchWithResilience {} {} (LoaderState.init ℕ .live) "fmp" "profile"
        [("symbol", some "AAPL")] true (fun _ => .error (.serverError 500))
        10 5 .noFail).2.1.breakers "fmp").requests = [true] ∧
      ((fetchWithResilience {} {} (LoaderState.init ℕ .live) "fmp" "profile"
        [("symbol", some "AAPL")] true (fun _ => .error (.serverError 500))
        10 5 .noFail).2.1.breakers "fmp").consecutive_successes = 1 ∧
      (fetchWithResilience {} {} (LoaderState.init ℕ .live) "fmp" "profile"
        [("symbol", some "AAPL")] true (fun _ => .error (.serverError 500))
        10 5 .noFail).2.1.stats.api_successes = 1 ∧
      (fetchWithResilience {} {} (LoaderState.init ℕ .live) "fmp" "profile"
        [("symbol", some "AAPL")] true (fun _ => .error (.serverError 500))
        10 5 .noFail).2.1.stats.api_failures = 0 ∧
      (((fetchWithResilience {} {} (LoaderState.init ℕ .live) "fmp" "profile"
        [("symbol", some "AAPL")] true (fun _ => .error (.serverError 500))
        10 5 .noFail).2.1.health.counters "fmp").failed = 1) := by
  refine ⟨?_, ?_, ?_, ?_, ?_, ?_, ?_⟩ <;>
    simp [fetchWithResilience, LoaderState.init, knownProviders, CacheManager.get,
      Breaker.can_execute, Breaker.check_state_transition, Breaker.init,
      RetryConfig.executeState, RetryConfig.executeStateLoop, providerGet,
      FetchExc.isHttpError, FetchExc.message, HealthMonitor.record_failure,
      HealthMonitor.record_request, HealthMonitor.init, Breaker.record_success,
      pushWindow] <;>
    first
    | decide
    | (split_ifs <;> rfl)

/-- Witness for `c8_retry_driver`: with the default configuration, a 404
is re-raised after one invocation, and a transport that always raises
`ServerError(500)` exhausts all 4 attempts. -/
theorem c8_retry_driver_witness :
    ({} : RetryConfig).execute (α := ℕ) (fun _ => .error (.clientError 404)) =
        (.raised (.clientError 404), 1) ∧
      ({} : RetryConfig).execute (α := ℕ) (fun _ => .error (.serverError 500)) =
        (.exhausted (some (.serverError 500)) 4, 4) := by
  constructor
  · exact (c8_retry_driver {} _ (.clientError 404) 404).2.1 rfl rfl
      (by decide) (by decide)
  · have h := (c8_retry_driver (α := ℕ) ({} : RetryConfig)
      (fun _ => .error (.serverError 500)) (.serverError 500) 500).2.2
      (fun _ => .serverError 500) (fun _ => rfl)
      (fun i =>
        show ({} : RetryConfig).is_exception_retryable (.serverError 500) = true by decide)
    simpa using h

end Nexus
